import Mathlib

set_option autoImplicit false

/-!
Shallow embedding of two components of the repository:

* `hummingbot/connector/derivative/okx_perpetual/okx_perpetual_auth.py`
  (class `OkxPerpetualAuth`): request signing.  Bytes are modelled as
  `Nat` values below 256; machine words as `Nat` reduced modulo `2 ^ 32`.
  The Python standard library calls (`hmac`/`hashlib` SHA-256, `base64`,
  UTF-8 encoding, `re.sub`) are given concrete executable models.

* `hummingbot/core/gateway/status_monitor.py`
  (class `GatewayStatusMonitor`): the poll-cycle state machine.
-/

/-! ## Byte-level primitives: UTF-8, SHA-256, HMAC, Base64 -/

/-- UTF-8 encoding of a single character (`bytes(s, encoding='utf-8')`). -/
def utf8EncodeChar (c : Char) : List Nat :=
  let n := c.toNat
  if n < 128 then [n]
  else if n < 2048 then
    [192 ||| (n >>> 6), 128 ||| (n &&& 63)]
  else if n < 65536 then
    [224 ||| (n >>> 12), 128 ||| ((n >>> 6) &&& 63), 128 ||| (n &&& 63)]
  else
    [240 ||| (n >>> 18), 128 ||| ((n >>> 12) &&& 63),
     128 ||| ((n >>> 6) &&& 63), 128 ||| (n &&& 63)]

/-- UTF-8 encoding of a string as a list of bytes. -/
def utf8Encode (s : String) : List Nat :=
  (s.toList.map utf8EncodeChar).flatten

/-- 32-bit right rotation on a `Nat` holding a 32-bit word. -/
def rotr32 (n x : Nat) : Nat :=
  ((x >>> n) ||| (x <<< (32 - n))) % 4294967296

/-- The eight 32-bit working variables of the SHA-256 compression function. -/
structure Sha256State where
  a : Nat
  b : Nat
  c : Nat
  d : Nat
  e : Nat
  f : Nat
  g : Nat
  h : Nat
deriving DecidableEq

/-- SHA-256 initial hash value (FIPS 180-4), written in decimal. -/
def sha256InitState : Sha256State :=
  ⟨1779033703, 3144134277, 1013904242, 2773480762,
   1359893119, 2600822924, 528734635, 1541459225⟩

/-- SHA-256 round constants (FIPS 180-4), written in decimal. -/
def sha256K : List Nat :=
  [1116352408, 1899447441, 3049323471, 3921009573,
   961987163, 1508970993, 2453635748, 2870763221,
   3624381080, 310598401, 607225278, 1426881987,
   1925078388, 2162078206, 2614888103, 3248222580,
   3835390401, 4022224774, 264347078, 604807628,
   770255983, 1249150122, 1555081692, 1996064986,
   2554220882, 2821834349, 2952996808, 3210313671,
   3336571891, 3584528711, 113926993, 338241895,
   666307205, 773529912, 1294757372, 1396182291,
   1695183700, 1986661051, 2177026350, 2456956037,
   2730485921, 2820302411, 3259730800, 3345764771,
   3516065817, 3600352804, 4094571909, 275423344,
   430227734, 506948616, 659060556, 883997877,
   958139571, 1322822218, 1537002063, 1747873779,
   1955562222, 2024104815, 2227730452, 2361852424,
   2428436474, 2756734187, 3204031479, 3329325298]

/-- Big-endian rendering of `n` into `k` bytes. -/
def beBytes (k n : Nat) : List Nat :=
  (List.range k).reverse.map (fun i => (n >>> (8 * i)) % 256)

/-- SHA-256 message padding: append `0x80`, zero bytes, and the 64-bit
big-endian bit length, reaching a multiple of 64 bytes. -/
def sha256Pad (msg : List Nat) : List Nat :=
  let padZeros := (119 - msg.length % 64) % 64
  msg ++ 128 :: List.replicate padZeros 0 ++ beBytes 8 (8 * msg.length)

/-- The big-endian 32-bit word made of bytes `4*j .. 4*j+3` of a block. -/
def word32At (block : List Nat) (j : Nat) : Nat :=
  (block.getD (4 * j) 0) <<< 24 ||| (block.getD (4 * j + 1) 0) <<< 16 |||
    (block.getD (4 * j + 2) 0) <<< 8 ||| block.getD (4 * j + 3) 0

/-- The 64-entry SHA-256 message schedule of one 64-byte block. -/
def sha256Schedule (block : List Nat) : List Nat :=
  let w16 := (List.range 16).map (word32At block)
  (List.range 48).foldl
    (fun w _ =>
      let t := w.length
      let x15 := w.getD (t - 15) 0
      let x2 := w.getD (t - 2) 0
      let s0 := rotr32 7 x15 ^^^ rotr32 18 x15 ^^^ (x15 >>> 3)
      let s1 := rotr32 17 x2 ^^^ rotr32 19 x2 ^^^ (x2 >>> 10)
      w ++ [(w.getD (t - 16) 0 + s0 + w.getD (t - 7) 0 + s1) % 4294967296])
    w16

/-- One round of the SHA-256 compression function. -/
def sha256Round (st : Sha256State) (wk : Nat × Nat) : Sha256State :=
  let S1 := rotr32 6 st.e ^^^ rotr32 11 st.e ^^^ rotr32 25 st.e
  let ch := (st.e &&& st.f) ^^^ ((st.e ^^^ 4294967295) &&& st.g)
  let t1 := (st.h + S1 + ch + wk.2 + wk.1) % 4294967296
  let S0 := rotr32 2 st.a ^^^ rotr32 13 st.a ^^^ rotr32 22 st.a
  let maj := (st.a &&& st.b) ^^^ (st.a &&& st.c) ^^^ (st.b &&& st.c)
  let t2 := (S0 + maj) % 4294967296
  ⟨(t1 + t2) % 4294967296, st.a, st.b, st.c, (st.d + t1) % 4294967296, st.e, st.f, st.g⟩

/-- SHA-256 compression of one 64-byte block into the running hash state. -/
def sha256Compress (st : Sha256State) (block : List Nat) : Sha256State :=
  let r := ((sha256Schedule block).zip sha256K).foldl sha256Round st
  ⟨(st.a + r.a) % 4294967296, (st.b + r.b) % 4294967296,
   (st.c + r.c) % 4294967296, (st.d + r.d) % 4294967296,
   (st.e + r.e) % 4294967296, (st.f + r.f) % 4294967296,
   (st.g + r.g) % 4294967296, (st.h + r.h) % 4294967296⟩

/-- SHA-256 digest (32 bytes) of a byte sequence, as in `hashlib`. -/
def sha256 (msg : List Nat) : List Nat :=
  let padded := sha256Pad msg
  let final :=
    (List.range (padded.length / 64)).foldl
      (fun st i => sha256Compress st ((padded.drop (64 * i)).take 64))
      sha256InitState
  beBytes 4 final.a ++ beBytes 4 final.b ++ beBytes 4 final.c ++ beBytes 4 final.d ++
    beBytes 4 final.e ++ beBytes 4 final.f ++ beBytes 4 final.g ++ beBytes 4 final.h

/-- HMAC-SHA256 (RFC 2104), as produced by `hmac.new(key, msg, digestmod='sha256')`. -/
def hmacSha256 (key msg : List Nat) : List Nat :=
  let k0 := if 64 < key.length then sha256 key else key
  let k0p := k0 ++ List.replicate (64 - k0.length) 0
  let inner := sha256 (k0p.map (fun b => b ^^^ 54) ++ msg)
  sha256 (k0p.map (fun b => b ^^^ 92) ++ inner)

/-- The Base64 alphabet. -/
def base64Alphabet : List Char :=
  ("ABCDEFGHIJKLMNOPQRSTUVWXYZabcdefghijklmnopqrstuvwxyz0123456789+/").toList

/-- Character for a 6-bit group. -/
def base64Digit (n : Nat) : Char := base64Alphabet.getD n ('A')

/-- Base64 encoding of a byte sequence (with `=` padding), as characters. -/
def base64EncodeBytes : List Nat → List Char
  | b1 :: b2 :: b3 :: rest =>
    let n := b1 <<< 16 ||| b2 <<< 8 ||| b3
    base64Digit (n >>> 18 &&& 63) :: base64Digit (n >>> 12 &&& 63) ::
      base64Digit (n >>> 6 &&& 63) :: base64Digit (n &&& 63) :: base64EncodeBytes rest
  | [b1, b2] =>
    let n := b1 <<< 16 ||| b2 <<< 8
    [base64Digit (n >>> 18 &&& 63), base64Digit (n >>> 12 &&& 63),
     base64Digit (n >>> 6 &&& 63), '=']
  | [b1] =>
    let n := b1 <<< 16
    [base64Digit (n >>> 18 &&& 63), base64Digit (n >>> 12 &&& 63), '=', '=']
  | [] => []

/-- Base64 encoding of a byte sequence as a string (`base64.b64encode` then
decoding the ASCII result). -/
def base64Encode (bs : List Nat) : String := String.mk (base64EncodeBytes bs)

/-! ## `okx_perpetual_auth.py` -/

/-- `RESTMethod` enumeration from
`hummingbot/core/web_assistant/connections/data_types.py`. -/
inductive RESTMethod where
  | GET
  | POST
  | PUT
  | DELETE
deriving DecidableEq

/-- The string value of a `RESTMethod` member. -/
def RESTMethod.value : RESTMethod → String
  | .GET => "GET"
  | .POST => "POST"
  | .PUT => "PUT"
  | .DELETE => "DELETE"

/-- Python `str.upper` (sufficient for the ASCII method names it is applied to). -/
def strUpper (s : String) : String := String.mk (s.toList.map Char.toUpper)

/-- A REST request as consumed by `rest_authenticate`: method, URL, optional
params payload (passed to the signer as the body) and a header map. -/
structure RESTRequest where
  method : RESTMethod
  url : String
  params : Option String
  headers : List (String × String)
deriving DecidableEq

/-- Does the 19-character regex pattern `https://www.okx.com` match at the
head of the character list?  The two unescaped dots of the Python pattern
are wildcards matching any character except a newline. -/
def okxPatternHeadMatch (cs : List Char) : Bool :=
  match cs with
  | 'h' :: 't' :: 't' :: 'p' :: 's' :: ':' :: '/' :: '/' :: 'w' :: 'w' :: 'w' :: w1 ::
      'o' :: 'k' :: 'x' :: w2 :: 'c' :: 'o' :: 'm' :: _ =>
    w1 != '\n' && w2 != '\n'
  | _ => false

/-- `re.sub(re.compile(r'https://www.okx.com'), '', url)` on the character
list: scan left to right, removing every leftmost non-overlapping match.
The first argument counts characters of a recognised match still to be
consumed without being emitted. -/
def reSubOkxAux : Nat → List Char → List Char
  | _, [] => []
  | skip + 1, _ :: rest => reSubOkxAux skip rest
  | 0, c :: rest =>
    if okxPatternHeadMatch (c :: rest) then reSubOkxAux 18 rest
    else c :: reSubOkxAux 0 rest

/-- `re.sub` of the full pattern over the whole character list. -/
def reSubOkxPattern (cs : List Char) : List Char := reSubOkxAux 0 cs

/-- `OkxPerpetualAuth.get_path_from_url`. -/
def get_path_from_url (url : String) : String :=
  String.mk (reSubOkxPattern url.toList)

/-- The credentials held by an `OkxPerpetualAuth` instance. -/
structure OkxPerpetualAuth where
  api_key : String
  api_secret : String
  passphrase : String
deriving DecidableEq

/-- `OkxPerpetualAuth.generate_signature_from_payload`: prehash string
`timestamp + str.upper(method.value) + get_path_from_url(request_path) + body`
(a `None` body becomes the empty string), HMAC-SHA256 under the UTF-8
secret, then Base64. -/
def generate_signature_from_payload (auth : OkxPerpetualAuth) (timestamp : String)
    (method : RESTMethod) (request_path : String) (body : Option String) : String :=
  let bodyStr := body.getD ("")
  let message := timestamp ++ strUpper method.value ++ get_path_from_url request_path ++ bodyStr
  base64Encode (hmacSha256 (utf8Encode auth.api_secret) (utf8Encode message))

/-- A UTC wall-clock instant as produced by `datetime.utcnow()`:
the field bounds of a valid `datetime` are imposed as hypotheses where needed. -/
structure UtcDateTime where
  year : Nat
  month : Nat
  day : Nat
  hour : Nat
  minute : Nat
  second : Nat
  millisecond : Nat
deriving DecidableEq

/-- Zero-padded `k`-digit decimal rendering of `n` (as `datetime.isoformat`
renders each field, given `n < 10 ^ k`). -/
def padNum (k n : Nat) : List Char :=
  (List.range k).reverse.map (fun i => Nat.digitChar (n / 10 ^ i % 10))

/-- `OkxPerpetualAuth._get_timestamp`, i.e.
`datetime.utcnow().isoformat(timespec='milliseconds') + 'Z'`, modelled on the
components of the current UTC instant. -/
def getTimestamp (dt : UtcDateTime) : String :=
  String.mk (padNum 4 dt.year ++ '-' :: padNum 2 dt.month ++ '-' :: padNum 2 dt.day ++
    'T' :: padNum 2 dt.hour ++ ':' :: padNum 2 dt.minute ++ ':' :: padNum 2 dt.second ++
    '.' :: padNum 3 dt.millisecond ++ ['Z'])

/-- `OkxPerpetualAuth.rest_authenticate`: generate a fresh timestamp (modelled
by the `dt` argument), sign (timestamp, method, url, params-as-body), and
replace the request's header map with the four OKX headers. -/
def rest_authenticate (auth : OkxPerpetualAuth) (dt : UtcDateTime)
    (request : RESTRequest) : RESTRequest :=
  let timestamp := getTimestamp dt
  let accessSign := generate_signature_from_payload auth timestamp request.method
    request.url request.params
  { request with
    headers :=
      [(("OK-ACCESS-KEY"), auth.api_key),
       (("OK-ACCESS-SIGN"), accessSign),
       (("OK-ACCESS-TIMESTAMP"), timestamp),
       (("OK-ACCESS-PASSPHRASE"), auth.passphrase)] }

/-- Is `c` a decimal digit? -/
def isDigitChar (c : Char) : Bool := 48 ≤ c.toNat && c.toNat ≤ 57

/-- Does `s` match the ISO-8601 UTC millisecond pattern
`dddd-dd-ddTdd:dd:dd.dddZ` (24 characters, literal trailing `Z`)? -/
def isIso8601MillisZ (s : String) : Bool :=
  match s.toList with
  | [y1, y2, y3, y4, '-', m1, m2, '-', d1, d2, 'T', h1, h2, ':', n1, n2, ':',
      s1, s2, '.', f1, f2, f3, 'Z'] =>
    ([y1, y2, y3, y4, m1, m2, d1, d2, h1, h2, n1, n2, s1, s2, f1, f2, f3]).all isDigitChar
  | _ => false

/-! ### Spec-side definitions for the signing contract

These follow the words of the specification (sections 4.1 and 4.2), to be
compared with the source embedding above. -/

/-- Modelled from the spec: the Signer contract `sign(secret, message)` —
HMAC-SHA256 over the UTF-8 encoding of `message`, keyed by the UTF-8
encoding of `secret`, then Base64 of the raw digest bytes. -/
def specSign (secret message : String) : String :=
  base64Encode (hmacSha256 (utf8Encode secret) (utf8Encode message))

/-- Does the second list start with the first, compared character by
character? -/
def listStartsWith : List Char → List Char → Bool
  | [], _ => true
  | _ :: _, [] => false
  | p :: ps, c :: cs => p == c && listStartsWith ps cs

/-- Modelled from the spec: strip the exchange base URL when it is the exact
leading substring of the path, otherwise pass the path through unchanged. -/
def specStripBaseUrl (url : String) : String :=
  if listStartsWith (("https://www.okx.com").toList) url.toList then
    String.mk (url.toList.drop 19)
  else url

/-- Modelled from the spec: the canonical message — timestamp, upper-cased
method name, exact-match-stripped path, body (empty string when absent). -/
def specCanonicalMessage (timestamp : String) (method : RESTMethod)
    (request_path : String) (body : Option String) : String :=
  timestamp ++ strUpper method.value ++ specStripBaseUrl request_path ++ body.getD ("")

/-! ## `status_monitor.py` -/

/-- `GatewayContainerStatus` enumeration. -/
inductive GatewayContainerStatus where
  | RUNNING
  | STOPPED
deriving DecidableEq

/-- `GatewayConnectivityStatus` enumeration. -/
inductive GatewayConnectivityStatus where
  | ONLINE
  | OFFLINE
deriving DecidableEq

/-- The value actually stored in the `_gateway_connectivity_status` field.
Python fields are untyped at runtime, and `_monitor_loop` (line 105) can
store a member of either enumeration into this field, so the model keeps
the sum of the two enumerations. -/
inductive ConnVal where
  | conn (s : GatewayConnectivityStatus)
  | cont (s : GatewayContainerStatus)
deriving DecidableEq

/-- Outcome of awaiting one external call inside the poll cycle: a returned
value, a raised non-cancellation exception, or a raised
`asyncio.CancelledError`.  For the connectivity query and the configuration
refresh, `exn` also covers errors while indexing into the returned payload,
since no monitor state is mutated between the await and that indexing; the
connector-registry step mutates in between and gets its own result type
below. -/
inductive FetchResult (α : Type) where
  | ok (val : α)
  | exn
  | cancel
deriving DecidableEq

/-- Outcome of the connector-registry refresh of the STOPPED branch
(lines 97-99).  The awaited `get_connectors` call can raise a
non-cancellation exception (`exn`) or a cancellation (`cancel`) before
anything is mutated.  Once it returns, `GATEWAY_CONNECTORS.clear()` runs
unconditionally, and the name-extraction comprehension either yields the
name list (`ok`) or raises — after the registry was already cleared
(`parseExn`).  No await separates the clear from the extend, so no
cancellation can be delivered between them. -/
inductive ConnectorsResult where
  | ok (names : List String)
  | parseExn
  | exn
  | cancel
deriving DecidableEq

/-- The mutable state touched by one poll cycle of `GatewayStatusMonitor`:
the two status fields, the readiness event flag, the cached configuration
key list, and the process-wide `GATEWAY_CONNECTORS` registry. -/
structure MonitorState where
  containerStatus : GatewayContainerStatus
  connectivityStatus : ConnVal
  readyEvent : Bool
  configKeys : List String
  connectors : List String
deriving DecidableEq

/-- The monitor state made by `GatewayStatusMonitor.__init__` (container
STOPPED, connectivity OFFLINE, event unset, empty key list), alongside
whatever contents `g0` the external `GATEWAY_CONNECTORS` registry holds. -/
def initState (g0 : List String) : MonitorState :=
  ⟨GatewayContainerStatus.STOPPED, ConnVal.conn GatewayConnectivityStatus.OFFLINE,
    false, [], g0⟩

/-- The nondeterministic environment of one poll cycle: what each external
call would yield if reached.  `ping` is `await asyncio.wait_for(ping_gateway(),
timeout=POLL_TIMEOUT)`; `connectorsFetch` is the `get_connectors` call
together with the name extraction of line 99; `configRefresh` is
`get_configuration` composed with `build_config_namespace_keys`, reduced to
the flattened key list; `chainStatus` is `get_gateway_status` reduced to
the `currentBlockNumber` of each reported chain. -/
structure CycleEnv where
  ping : FetchResult Bool
  connectorsFetch : ConnectorsResult
  configRefresh : FetchResult (List String)
  chainStatus : FetchResult (List Int)
deriving DecidableEq

/-- `GatewayStatusMonitor.update_gateway_config_key_list` acting on the
cached key list: build the flattened list, then replace the cached list as
a whole; every non-cancellation exception is caught and logged inside this
method (the key list keeps its prior value when fetch or flattening raises);
`asyncio.CancelledError` is not an `Exception` and propagates (`none`). -/
def update_gateway_config_key_list (keys : List String)
    (configRefresh : FetchResult (List String)) : Option (List String) :=
  match configRefresh with
  | .cancel => none
  | .exn => some keys
  | .ok newKeys => some newKeys

/-- The `try`/`except` body of one iteration of
`GatewayStatusMonitor._monitor_loop` (lines 93-122), before the `finally`
block.  `none` means `asyncio.CancelledError` was re-raised and the loop
terminated; `some` is the state when the iteration reaches the `finally`
block (a swallowed non-cancellation exception leaves the state as it stood
when the exception was raised). -/
def monitorCycleBody (st : MonitorState) (env : CycleEnv) : Option MonitorState :=
  match env.ping with
  | .cancel => none
  | .exn => some st
  | .ok true =>
    if st.containerStatus = GatewayContainerStatus.STOPPED then
      match env.connectorsFetch with
      | .cancel => none
      | .exn => some st
      | .parseExn => some { st with connectors := [] }
      | .ok names =>
        let st1 := { st with connectors := names }
        match update_gateway_config_key_list st1.configKeys env.configRefresh with
        | none => none
        | some keys =>
          some { st1 with
            configKeys := keys,
            containerStatus := GatewayContainerStatus.RUNNING }
    else if st.connectivityStatus = ConnVal.conn GatewayConnectivityStatus.OFFLINE then
      match env.chainStatus with
      | .cancel => none
      | .exn => some st
      | .ok blocks =>
        let newConn :=
          if blocks.any (fun b => decide (0 < b)) then
            ConnVal.conn GatewayConnectivityStatus.ONLINE
          else
            ConnVal.cont GatewayContainerStatus.STOPPED
        some { st with
          connectivityStatus := newConn,
          readyEvent := true,
          containerStatus := GatewayContainerStatus.RUNNING }
    else
      some { st with containerStatus := GatewayContainerStatus.RUNNING }
  | .ok false =>
    let st1 := { st with readyEvent := false }
    if st1.containerStatus = GatewayContainerStatus.RUNNING then
      some { st1 with
        containerStatus := GatewayContainerStatus.STOPPED,
        connectivityStatus := ConnVal.conn GatewayConnectivityStatus.OFFLINE }
    else
      some st1

/-- One full iteration of `_monitor_loop`, including the `finally` block
(line 124-125): sleep `POLL_INTERVAL`, then clear the readiness event. -/
def monitorCycle (st : MonitorState) (env : CycleEnv) : Option MonitorState :=
  (monitorCycleBody st env).map (fun s => { s with readyEvent := false })

/-- The monitor states reachable from `__init__` through completed poll
cycles with arbitrary probe outcomes. -/
inductive Reachable (g0 : List String) : MonitorState → Prop where
  | init : Reachable g0 (initState g0)
  | step (s s' : MonitorState) (env : CycleEnv) :
      Reachable g0 s → monitorCycle s env = some s' → Reachable g0 s'

/-- `GatewayStatusMonitor.wait_for_online_status`, with the container status
read at each iteration supplied by `statusSeq` (the value of
`_gateway_container_status` when the `k`-th check runs) and the number of
`asyncio.sleep(POLL_INTERVAL)` calls counted alongside the returned status. -/
def waitForOnlineAux (statusSeq : Nat → GatewayContainerStatus) :
    Nat → Nat → GatewayContainerStatus × Nat
  | k, 0 => (statusSeq k, 0)
  | k, fuel + 1 =>
    if statusSeq k = GatewayContainerStatus.RUNNING then (statusSeq k, 0)
    else
      let p := waitForOnlineAux statusSeq (k + 1) fuel
      (p.1, p.2 + 1)

/-- `wait_for_online_status(max_tries)` from the first check.  The loop
decrements `max_tries` (an arbitrary integer) once per sleep and stops as
soon as it is non-positive, so the remaining iteration budget at entry is
exactly `maxTries.toNat`. -/
def wait_for_online_status (statusSeq : Nat → GatewayContainerStatus)
    (maxTries : Int) : GatewayContainerStatus × Nat :=
  waitForOnlineAux statusSeq 0 maxTries.toNat

/-- Modelled from the claim's amended reading: `re.sub` semantics of the
compiled pattern, written directly on the remaining characters — drop 19
characters on a head match and continue after the match, otherwise emit one
character and continue. -/
def specReSubOkx : List Char → List Char
  | [] => []
  | c :: rest =>
    if okxPatternHeadMatch (c :: rest) then specReSubOkx (rest.drop 18)
    else c :: specReSubOkx rest
termination_by cs => cs.length
decreasing_by
  · simp only [List.length_cons, List.length_drop]
    omega
  · simp only [List.length_cons]
    omega

theorem reSubOkxAux_eq_drop (n : Nat) :
    ∀ cs : List Char, reSubOkxAux n cs = reSubOkxAux 0 (cs.drop n) := by
  induction n with
  | zero => intro cs; simp
  | succ n ih =>
    intro cs
    cases cs with
    | nil => simp [reSubOkxAux]
    | cons c rest => simpa [reSubOkxAux] using ih rest

theorem reSubOkxAux_eq_spec (cs : List Char) :
    reSubOkxAux 0 cs = specReSubOkx cs := by
  have H : ∀ n cs, List.length cs ≤ n → reSubOkxAux 0 cs = specReSubOkx cs := by
    intro n
    induction n with
    | zero =>
      intro cs hcs
      have h0 : cs = [] := List.eq_nil_of_length_eq_zero (Nat.le_zero.mp hcs)
      subst h0
      simp [reSubOkxAux, specReSubOkx]
    | succ n ih =>
      intro cs hcs
      cases cs with
      | nil => simp [reSubOkxAux, specReSubOkx]
      | cons c rest =>
        rw [specReSubOkx]
        by_cases hm : okxPatternHeadMatch (c :: rest)
        · rw [if_pos hm]
          have h1 : reSubOkxAux 0 (c :: rest) = reSubOkxAux 18 rest := by
            simp [reSubOkxAux, hm]
          rw [h1, reSubOkxAux_eq_drop]
          refine ih _ ?_
          simp only [List.length_drop]
          simp only [List.length_cons] at hcs
          omega
        · rw [if_neg hm]
          have h1 : reSubOkxAux 0 (c :: rest) = c :: reSubOkxAux 0 rest := by
            simp [reSubOkxAux, hm]
          rw [h1]
          rw [ih rest (by simp only [List.length_cons] at hcs; omega)]
  exact H cs.length cs le_rfl

theorem isDigitChar_digitChar_mod (m : Nat) :
    isDigitChar (Nat.digitChar (m % 10)) = true := by
  have h : m % 10 < 10 := Nat.mod_lt m (by norm_num)
  set d := m % 10 with hd
  interval_cases d <;> rfl

theorem iso_shape (y1 y2 y3 y4 m1 m2 d1 d2 h1 h2 n1 n2 s1 s2 f1 f2 f3 : Char)
    (hall : ([y1, y2, y3, y4, m1, m2, d1, d2, h1, h2, n1, n2, s1, s2, f1, f2, f3]).all
      isDigitChar = true) :
    isIso8601MillisZ (String.mk [y1, y2, y3, y4, '-', m1, m2, '-', d1, d2, 'T', h1, h2,
      ':', n1, n2, ':', s1, s2, '.', f1, f2, f3, 'Z']) = true := by
  simpa [isIso8601MillisZ] using hall

theorem getTimestamp_isIso (dt : UtcDateTime) :
    isIso8601MillisZ (getTimestamp dt) = true := by
  obtain ⟨y, mo, d, h, mi, s, ms⟩ := dt
  have e4 : padNum 4 y = [Nat.digitChar (y / 1000 % 10), Nat.digitChar (y / 100 % 10),
      Nat.digitChar (y / 10 % 10), Nat.digitChar (y / 1 % 10)] := rfl
  have emo : padNum 2 mo = [Nat.digitChar (mo / 10 % 10), Nat.digitChar (mo / 1 % 10)] := rfl
  have ed : padNum 2 d = [Nat.digitChar (d / 10 % 10), Nat.digitChar (d / 1 % 10)] := rfl
  have eh : padNum 2 h = [Nat.digitChar (h / 10 % 10), Nat.digitChar (h / 1 % 10)] := rfl
  have emi : padNum 2 mi = [Nat.digitChar (mi / 10 % 10), Nat.digitChar (mi / 1 % 10)] := rfl
  have es : padNum 2 s = [Nat.digitChar (s / 10 % 10), Nat.digitChar (s / 1 % 10)] := rfl
  have ems : padNum 3 ms = [Nat.digitChar (ms / 100 % 10), Nat.digitChar (ms / 10 % 10),
      Nat.digitChar (ms / 1 % 10)] := rfl
  show isIso8601MillisZ (String.mk (padNum 4 y ++ '-' :: padNum 2 mo ++ '-' :: padNum 2 d ++
    'T' :: padNum 2 h ++ ':' :: padNum 2 mi ++ ':' :: padNum 2 s ++
    '.' :: padNum 3 ms ++ ['Z'])) = true
  rw [e4, emo, ed, eh, emi, es, ems]
  exact iso_shape _ _ _ _ _ _ _ _ _ _ _ _ _ _ _ _ _
    (by simp [List.all_cons, isDigitChar_digitChar_mod])

/-! ## Claim theorems: request signing -/

/-- C3: `rest_authenticate` returns the request with its header map replaced
wholesale by exactly the four OKX headers — key, signature over (fresh
timestamp, method, url, params-as-body), timestamp, passphrase — where the
timestamp matches the ISO-8601 UTC millisecond pattern with a trailing `Z`;
method, url and params of the request are unchanged. -/
theorem rest_authenticate_four_headers (auth : OkxPerpetualAuth) (dt : UtcDateTime)
    (request : RESTRequest)
    (hy1 : 1 ≤ dt.year) (hy2 : dt.year ≤ 9999)
    (hmo1 : 1 ≤ dt.month) (hmo2 : dt.month ≤ 12)
    (hd1 : 1 ≤ dt.day) (hd2 : dt.day ≤ 31)
    (hh : dt.hour ≤ 23) (hmi : dt.minute ≤ 59) (hs : dt.second ≤ 59)
    (hms : dt.millisecond ≤ 999) :
    (rest_authenticate auth dt request).headers =
      [(("OK-ACCESS-KEY"), auth.api_key),
       (("OK-ACCESS-SIGN"), generate_signature_from_payload auth (getTimestamp dt)
          request.method request.url request.params),
       (("OK-ACCESS-TIMESTAMP"), getTimestamp dt),
       (("OK-ACCESS-PASSPHRASE"), auth.passphrase)] ∧
    isIso8601MillisZ (getTimestamp dt) = true ∧
    (rest_authenticate auth dt request).method = request.method ∧
    (rest_authenticate auth dt request).url = request.url ∧
    (rest_authenticate auth dt request).params = request.params :=
  ⟨rfl, getTimestamp_isIso dt, rfl, rfl, rfl⟩

/-- Witness for C3 at a concrete credential set, instant and request. -/
theorem rest_authenticate_four_headers_witness :
    (rest_authenticate ⟨"k", "sec", "p"⟩ ⟨2020, 12, 8, 9, 8, 57, 715⟩
        ⟨RESTMethod.GET, "https://www.okx.com/api/v5/account/balance", none, []⟩).headers =
      [(("OK-ACCESS-KEY"), "k"),
       (("OK-ACCESS-SIGN"), generate_signature_from_payload ⟨"k", "sec", "p"⟩
          (getTimestamp ⟨2020, 12, 8, 9, 8, 57, 715⟩) RESTMethod.GET
          ("https://www.okx.com/api/v5/account/balance") none),
       (("OK-ACCESS-TIMESTAMP"), getTimestamp ⟨2020, 12, 8, 9, 8, 57, 715⟩),
       (("OK-ACCESS-PASSPHRASE"), "p")] ∧
    isIso8601MillisZ (getTimestamp ⟨2020, 12, 8, 9, 8, 57, 715⟩) = true ∧
    (rest_authenticate ⟨"k", "sec", "p"⟩ ⟨2020, 12, 8, 9, 8, 57, 715⟩
        ⟨RESTMethod.GET, "https://www.okx.com/api/v5/account/balance", none, []⟩).method
      = RESTMethod.GET ∧
    (rest_authenticate ⟨"k", "sec", "p"⟩ ⟨2020, 12, 8, 9, 8, 57, 715⟩
        ⟨RESTMethod.GET, "https://www.okx.com/api/v5/account/balance", none, []⟩).url
      = "https://www.okx.com/api/v5/account/balance" ∧
    (rest_authenticate ⟨"k", "sec", "p"⟩ ⟨2020, 12, 8, 9, 8, 57, 715⟩
        ⟨RESTMethod.GET, "https://www.okx.com/api/v5/account/balance", none, []⟩).params
      = none :=
  rest_authenticate_four_headers ⟨"k", "sec", "p"⟩ ⟨2020, 12, 8, 9, 8, 57, 715⟩
    ⟨RESTMethod.GET, "https://www.okx.com/api/v5/account/balance", none, []⟩
    (by decide) (by decide) (by decide) (by decide) (by decide) (by decide)
    (by decide) (by decide) (by decide) (by decide)

/-- C4 counterexample: the claim says the base URL is stripped by exact
string match and that a path lacking the exact base URL is passed through
unchanged.  The code instead substitutes the regex pattern
`https://www.okx.com` whose two unescaped dots match any character: on
`https://wwwAokxBcom/api` the exact base URL is absent, yet the code strips
the first 19 characters; the code also removes non-leading occurrences. -/
theorem get_path_exact_match_cex :
    get_path_from_url ("https://wwwAokxBcom/api") = "/api" ∧
    specStripBaseUrl ("https://wwwAokxBcom/api") = "https://wwwAokxBcom/api" ∧
    (("/api") : String) ≠ "https://wwwAokxBcom/api" ∧
    get_path_from_url ("foohttps://www.okx.com/bar") = "foo/bar" ∧
    specStripBaseUrl ("foohttps://www.okx.com/bar") = "foohttps://www.okx.com/bar" ∧
    ("1" ++ strUpper (RESTMethod.GET).value ++ get_path_from_url ("https://wwwAokxBcom/api")
        ++ (none : Option String).getD (""))
      ≠ specCanonicalMessage ("1") RESTMethod.GET ("https://wwwAokxBcom/api") none :=
  ⟨by decide, by decide, by decide, by decide, by decide, by decide⟩

/-- C4 (amended): the signature is the Base64 HMAC-SHA256 tag, under the
UTF-8 secret, of the concatenation of the timestamp, the upper-cased method
name, the request path with every leftmost non-overlapping match of the
regex pattern `https://www.okx.com` (dots matching any character) removed,
and the body (empty when absent); and the function is deterministic. -/
theorem generate_signature_amended :
    (∀ (auth : OkxPerpetualAuth) (ts : String) (m : RESTMethod) (path : String)
        (body : Option String),
      generate_signature_from_payload auth ts m path body =
        specSign auth.api_secret
          (ts ++ strUpper m.value ++ get_path_from_url path ++ body.getD (""))) ∧
    (∀ url : String, get_path_from_url url = String.mk (specReSubOkx url.toList)) ∧
    (∀ (auth : OkxPerpetualAuth) (ts : String) (m : RESTMethod) (path : String)
        (body : Option String),
      generate_signature_from_payload auth ts m path body =
        generate_signature_from_payload auth ts m path body) :=
  ⟨fun _ _ _ _ _ => rfl,
   fun url => congrArg String.mk (reSubOkxAux_eq_spec url.toList),
   fun _ _ _ _ _ => rfl⟩

/-! ## Claim theorems: gateway status monitor -/

/-- C1 (code bug, line 105): in the RUNNING-but-OFFLINE connectivity check,
when no chain reports `currentBlockNumber > 0`, the code stores
`GatewayContainerStatus.STOPPED` — a member of the container-status
enumeration — into the connectivity-status field, instead of leaving it at
`GatewayConnectivityStatus.OFFLINE` as the spec states; the resulting value
is not any member of the connectivity enumeration.  With positive progress
the field is set to ONLINE as the claim states. -/
theorem connectivity_no_progress_code_bug :
    monitorCycleBody
        ⟨GatewayContainerStatus.RUNNING, ConnVal.conn GatewayConnectivityStatus.OFFLINE,
          false, [], []⟩
        ⟨FetchResult.ok true, ConnectorsResult.exn, FetchResult.exn, FetchResult.ok ([(0 : Int)])⟩
      = some ⟨GatewayContainerStatus.RUNNING, ConnVal.cont GatewayContainerStatus.STOPPED,
          true, [], []⟩ ∧
    (∀ v : GatewayConnectivityStatus,
      ConnVal.cont GatewayContainerStatus.STOPPED ≠ ConnVal.conn v) ∧
    monitorCycleBody
        ⟨GatewayContainerStatus.RUNNING, ConnVal.conn GatewayConnectivityStatus.OFFLINE,
          false, [], []⟩
        ⟨FetchResult.ok true, ConnectorsResult.exn, FetchResult.exn, FetchResult.ok ([(7 : Int)])⟩
      = some ⟨GatewayContainerStatus.RUNNING, ConnVal.conn GatewayConnectivityStatus.ONLINE,
          true, [], []⟩ :=
  ⟨by decide, fun v => by cases v <;> decide, by decide⟩

/-- C2 counterexample: a cycle whose connectivity check returns with no
chain in positive progress still sets the readiness event, contradicting
the claim that the event is set only when the check yields progress. -/
theorem ready_event_no_progress_cex :
    monitorCycleBody
        ⟨GatewayContainerStatus.RUNNING, ConnVal.conn GatewayConnectivityStatus.OFFLINE,
          false, [], []⟩
        ⟨FetchResult.ok true, ConnectorsResult.exn, FetchResult.exn, FetchResult.ok ([(0 : Int)])⟩
      = some ⟨GatewayContainerStatus.RUNNING, ConnVal.cont GatewayContainerStatus.STOPPED,
          true, [], []⟩ ∧
    ([(0 : Int)]).any (fun b => decide (0 < b)) = false :=
  ⟨by decide, by decide⟩

/-- C2 (amended): entering a cycle with the readiness event clear, the event
is set at the end of the cycle body if and only if the probe succeeded, the
RUNNING-but-OFFLINE connectivity check ran, and the connectivity query
returned a value — regardless of whether any chain reported progress. -/
theorem ready_event_set_iff (s : MonitorState) (env : CycleEnv) (s' : MonitorState)
    (hready : s.readyEvent = false) (h : monitorCycleBody s env = some s') :
    s'.readyEvent = true ↔
      (env.ping = FetchResult.ok true ∧
       s.containerStatus ≠ GatewayContainerStatus.STOPPED ∧
       s.connectivityStatus = ConnVal.conn GatewayConnectivityStatus.OFFLINE ∧
       ∃ bs : List Int, env.chainStatus = FetchResult.ok bs) := by
  unfold monitorCycleBody at h
  cases hp : env.ping with
  | cancel => rw [hp] at h; cases h
  | exn =>
    rw [hp] at h
    injection h with h
    subst h
    simp [hready, hp]
  | ok b =>
    rw [hp] at h
    cases b with
    | false =>
      simp only [] at h
      split at h <;> injection h with h <;> subst h <;> simp [hp]
    | true =>
      simp only [] at h
      by_cases hst : s.containerStatus = GatewayContainerStatus.STOPPED
      · rw [if_pos hst] at h
        cases hcf : env.connectorsFetch with
        | cancel => rw [hcf] at h; cases h
        | exn =>
          rw [hcf] at h
          injection h with h
          subst h
          simp [hready, hst]
        | parseExn =>
          rw [hcf] at h
          injection h with h
          subst h
          simp [hready, hst]
        | ok names =>
          rw [hcf] at h
          cases hcr : env.configRefresh with
          | cancel => simp [update_gateway_config_key_list, hcr] at h
          | exn =>
            simp only [update_gateway_config_key_list, hcr] at h
            injection h with h
            subst h
            simp [hready, hst]
          | ok keys =>
            simp only [update_gateway_config_key_list, hcr] at h
            injection h with h
            subst h
            simp [hready, hst]
      · rw [if_neg hst] at h
        by_cases hco : s.connectivityStatus = ConnVal.conn GatewayConnectivityStatus.OFFLINE
        · rw [if_pos hco] at h
          cases hcs : env.chainStatus with
          | cancel => rw [hcs] at h; cases h
          | exn =>
            rw [hcs] at h
            injection h with h
            subst h
            simp [hready, hcs]
          | ok bs =>
            rw [hcs] at h
            injection h with h
            subst h
            simp [hst, hco]
        · rw [if_neg hco] at h
          injection h with h
          subst h
          simp [hready, hco]

/-- Witness for C2's amended theorem: a cycle performing the check with
progress reported ends its body with the readiness event set. -/
theorem ready_event_set_iff_witness :
    (⟨GatewayContainerStatus.RUNNING, ConnVal.conn GatewayConnectivityStatus.ONLINE,
        true, [], []⟩ : MonitorState).readyEvent = true :=
  (ready_event_set_iff
      ⟨GatewayContainerStatus.RUNNING, ConnVal.conn GatewayConnectivityStatus.OFFLINE,
        false, [], []⟩
      ⟨FetchResult.ok true, ConnectorsResult.exn, FetchResult.exn, FetchResult.ok ([(7 : Int)])⟩
      ⟨GatewayContainerStatus.RUNNING, ConnVal.conn GatewayConnectivityStatus.ONLINE,
        true, [], []⟩
      rfl (by decide)).mpr
    ⟨rfl, by decide, rfl, ⟨[(7 : Int)], rfl⟩⟩

/-- Field-level facts about one completed cycle body, used for the
reachability invariant: every branch either asserts RUNNING, forces the
connectivity field to OFFLINE, or leaves both status fields unchanged; and
a move into STOPPED forces OFFLINE. -/
theorem monitorCycleBody_status_facts (s : MonitorState) (env : CycleEnv)
    (s' : MonitorState) (h : monitorCycleBody s env = some s') :
    (s'.containerStatus = GatewayContainerStatus.RUNNING ∨
     s'.connectivityStatus = ConnVal.conn GatewayConnectivityStatus.OFFLINE ∨
     (s'.containerStatus = s.containerStatus ∧
      s'.connectivityStatus = s.connectivityStatus)) ∧
    (s'.containerStatus = GatewayContainerStatus.STOPPED →
      s.containerStatus = GatewayContainerStatus.STOPPED ∨
      s'.connectivityStatus = ConnVal.conn GatewayConnectivityStatus.OFFLINE) := by
  unfold monitorCycleBody at h
  cases hp : env.ping with
  | cancel => rw [hp] at h; cases h
  | exn =>
    rw [hp] at h
    injection h with h
    subst h
    exact ⟨Or.inr (Or.inr ⟨rfl, rfl⟩), fun hstop => Or.inl hstop⟩
  | ok b =>
    rw [hp] at h
    cases b with
    | false =>
      simp only [] at h
      split at h <;> injection h with h <;> subst h
      · exact ⟨Or.inr (Or.inl rfl), fun _ => Or.inr rfl⟩
      · exact ⟨Or.inr (Or.inr ⟨rfl, rfl⟩), fun hstop => Or.inl hstop⟩
    | true =>
      simp only [] at h
      by_cases hst : s.containerStatus = GatewayContainerStatus.STOPPED
      · rw [if_pos hst] at h
        cases hcf : env.connectorsFetch with
        | cancel => rw [hcf] at h; cases h
        | exn =>
          rw [hcf] at h
          injection h with h
          subst h
          exact ⟨Or.inr (Or.inr ⟨rfl, rfl⟩), fun hstop => Or.inl hstop⟩
        | parseExn =>
          rw [hcf] at h
          injection h with h
          subst h
          exact ⟨Or.inr (Or.inr ⟨rfl, rfl⟩), fun hstop => Or.inl hstop⟩
        | ok names =>
          rw [hcf] at h
          cases hcr : env.configRefresh with
          | cancel => simp [update_gateway_config_key_list, hcr] at h
          | exn =>
            simp only [update_gateway_config_key_list, hcr] at h
            injection h with h
            subst h
            exact ⟨Or.inl rfl, fun hstop => by cases hstop⟩
          | ok keys =>
            simp only [update_gateway_config_key_list, hcr] at h
            injection h with h
            subst h
            exact ⟨Or.inl rfl, fun hstop => by cases hstop⟩
      · rw [if_neg hst] at h
        by_cases hco : s.connectivityStatus = ConnVal.conn GatewayConnectivityStatus.OFFLINE
        · rw [if_pos hco] at h
          cases hcs : env.chainStatus with
          | cancel => rw [hcs] at h; cases h
          | exn =>
            rw [hcs] at h
            injection h with h
            subst h
            exact ⟨Or.inr (Or.inr ⟨rfl, rfl⟩), fun hstop => Or.inl hstop⟩
          | ok bs =>
            rw [hcs] at h
            injection h with h
            subst h
            exact ⟨Or.inl rfl, fun hstop => by cases hstop⟩
        · rw [if_neg hco] at h
          injection h with h
          subst h
          exact ⟨Or.inl rfl, fun hstop => by cases hstop⟩

/-- The same facts for a full cycle: the final clearing of the readiness
event does not touch the status fields. -/
theorem monitorCycle_status_facts (s : MonitorState) (env : CycleEnv)
    (s' : MonitorState) (h : monitorCycle s env = some s') :
    (s'.containerStatus = GatewayContainerStatus.RUNNING ∨
     s'.connectivityStatus = ConnVal.conn GatewayConnectivityStatus.OFFLINE ∨
     (s'.containerStatus = s.containerStatus ∧
      s'.connectivityStatus = s.connectivityStatus)) ∧
    (s'.containerStatus = GatewayContainerStatus.STOPPED →
      s.containerStatus = GatewayContainerStatus.STOPPED ∨
      s'.connectivityStatus = ConnVal.conn GatewayConnectivityStatus.OFFLINE) := by
  unfold monitorCycle at h
  cases hb : monitorCycleBody s env with
  | none => rw [hb] at h; cases h
  | some t =>
    rw [hb] at h
    injection h with h
    subst h
    simpa using monitorCycleBody_status_facts s env t hb

/-- C5: on every state reachable from `__init__` through completed poll
cycles, connectivity ONLINE implies container RUNNING; and any single cycle
that moves the container status from RUNNING to STOPPED forces the
connectivity field to OFFLINE. -/
theorem online_implies_running :
    (∀ (g0 : List String) (s : MonitorState), Reachable g0 s →
      s.connectivityStatus = ConnVal.conn GatewayConnectivityStatus.ONLINE →
      s.containerStatus = GatewayContainerStatus.RUNNING) ∧
    (∀ (s : MonitorState) (env : CycleEnv) (s' : MonitorState),
      monitorCycle s env = some s' →
      s.containerStatus = GatewayContainerStatus.RUNNING →
      s'.containerStatus = GatewayContainerStatus.STOPPED →
      s'.connectivityStatus = ConnVal.conn GatewayConnectivityStatus.OFFLINE) := by
  constructor
  · intro g0 s hreach
    induction hreach with
    | init => intro honline; cases honline
    | step t t' env _ hcyc ih =>
      intro honline
      rcases (monitorCycle_status_facts t env t' hcyc).1 with hr | hoff | ⟨hc, hv⟩
      · exact hr
      · rw [honline] at hoff; cases hoff
      · rw [hc]; exact ih (hv ▸ honline)
  · intro s env s' hcyc hrun hstop
    rcases (monitorCycle_status_facts s env s' hcyc).2 hstop with hs | hoff
    · rw [hrun] at hs; cases hs
    · exact hoff

/-- Witness for C5: a concrete reachable ONLINE state (two successful
cycles from the initial state) satisfies the invariant, and a concrete
RUNNING-to-STOPPED cycle forces OFFLINE. -/
theorem online_implies_running_witness :
    (⟨GatewayContainerStatus.RUNNING, ConnVal.conn GatewayConnectivityStatus.ONLINE,
        false, ["k"], ["u"]⟩ : MonitorState).containerStatus
      = GatewayContainerStatus.RUNNING ∧
    (⟨GatewayContainerStatus.STOPPED, ConnVal.conn GatewayConnectivityStatus.OFFLINE,
        false, [], []⟩ : MonitorState).connectivityStatus
      = ConnVal.conn GatewayConnectivityStatus.OFFLINE := by
  constructor
  · refine online_implies_running.1 []
      ⟨GatewayContainerStatus.RUNNING, ConnVal.conn GatewayConnectivityStatus.ONLINE,
        false, ["k"], ["u"]⟩ ?_ rfl
    refine Reachable.step
      ⟨GatewayContainerStatus.RUNNING, ConnVal.conn GatewayConnectivityStatus.OFFLINE,
        false, ["k"], ["u"]⟩ _
      ⟨FetchResult.ok true, ConnectorsResult.exn, FetchResult.exn, FetchResult.ok ([(5 : Int)])⟩
      ?_ (by decide)
    exact Reachable.step (initState []) _
      ⟨FetchResult.ok true, ConnectorsResult.ok (["u"]), FetchResult.ok (["k"]), FetchResult.exn⟩
      Reachable.init (by decide)
  · exact online_implies_running.2
      ⟨GatewayContainerStatus.RUNNING, ConnVal.conn GatewayConnectivityStatus.ONLINE,
        false, [], []⟩
      ⟨FetchResult.ok false, ConnectorsResult.exn, FetchResult.exn, FetchResult.exn⟩
      ⟨GatewayContainerStatus.STOPPED, ConnVal.conn GatewayConnectivityStatus.OFFLINE,
        false, [], []⟩
      (by decide) rfl rfl

/-- C6 counterexample: a successful probe from STOPPED whose configuration
fetch raises a (non-cancellation) exception still advances the container
status to RUNNING — the exception is caught inside
`update_gateway_config_key_list`, so it does not leave the status fields at
their prior values as the claim demands of any exception raised while
reacting to a successful probe. -/
theorem swallowed_exception_cex :
    monitorCycleBody
        ⟨GatewayContainerStatus.STOPPED, ConnVal.conn GatewayConnectivityStatus.OFFLINE,
          false, ["old"], []⟩
        ⟨FetchResult.ok true, ConnectorsResult.ok (["uniswap"]), FetchResult.exn, FetchResult.exn⟩
      = some ⟨GatewayContainerStatus.RUNNING, ConnVal.conn GatewayConnectivityStatus.OFFLINE,
          false, ["old"], ["uniswap"]⟩ ∧
    GatewayContainerStatus.RUNNING ≠ GatewayContainerStatus.STOPPED :=
  ⟨by decide, by decide⟩

/-- C6 (amended): a non-cancellation exception that propagates to the poll
cycle's exception handler while reacting to a successful probe leaves both
container status and connectivity status at their prior values.  The three
propagating sites are treated exactly: an exception from the awaited
connector fetch (line 97) leaves the entire state unchanged; an exception
from extracting the connector names (line 99) leaves every field — both
statuses, the readiness event and the cached key list — unchanged except
the `GATEWAY_CONNECTORS` registry, which was already cleared at line 98; an
exception from the connectivity query leaves the entire state unchanged.
In particular a probe success that throws while fetching or parsing
connectors does not advance the container status to RUNNING.  A
cancellation raised at any await point of the cycle is re-raised and
terminates the loop. -/
theorem swallowed_exception_amended :
    (∀ (s : MonitorState) (env : CycleEnv), env.ping = FetchResult.ok true →
      s.containerStatus = GatewayContainerStatus.STOPPED →
      env.connectorsFetch = ConnectorsResult.exn →
      monitorCycleBody s env = some s) ∧
    (∀ (s : MonitorState) (env : CycleEnv), env.ping = FetchResult.ok true →
      s.containerStatus = GatewayContainerStatus.STOPPED →
      env.connectorsFetch = ConnectorsResult.parseExn →
      monitorCycleBody s env = some { s with connectors := [] }) ∧
    (∀ (s : MonitorState) (env : CycleEnv), env.ping = FetchResult.ok true →
      s.containerStatus ≠ GatewayContainerStatus.STOPPED →
      s.connectivityStatus = ConnVal.conn GatewayConnectivityStatus.OFFLINE →
      env.chainStatus = FetchResult.exn →
      monitorCycleBody s env = some s) ∧
    (∀ (s : MonitorState) (env : CycleEnv), env.ping = FetchResult.cancel →
      monitorCycleBody s env = none) ∧
    (∀ (s : MonitorState) (env : CycleEnv), env.ping = FetchResult.ok true →
      s.containerStatus = GatewayContainerStatus.STOPPED →
      env.connectorsFetch = ConnectorsResult.cancel →
      monitorCycleBody s env = none) ∧
    (∀ (s : MonitorState) (env : CycleEnv) (names : List String),
      env.ping = FetchResult.ok true →
      s.containerStatus = GatewayContainerStatus.STOPPED →
      env.connectorsFetch = ConnectorsResult.ok names →
      env.configRefresh = FetchResult.cancel →
      monitorCycleBody s env = none) ∧
    (∀ (s : MonitorState) (env : CycleEnv), env.ping = FetchResult.ok true →
      s.containerStatus ≠ GatewayContainerStatus.STOPPED →
      s.connectivityStatus = ConnVal.conn GatewayConnectivityStatus.OFFLINE →
      env.chainStatus = FetchResult.cancel →
      monitorCycleBody s env = none) := by
  refine ⟨?_, ?_, ?_, ?_, ?_, ?_, ?_⟩
  · intro s env hp hst hcf
    unfold monitorCycleBody
    rw [hp, if_pos hst, hcf]
  · intro s env hp hst hcf
    unfold monitorCycleBody
    rw [hp, if_pos hst, hcf]
  · intro s env hp hst hco hcs
    unfold monitorCycleBody
    rw [hp, if_neg hst, if_pos hco, hcs]
  · intro s env hp
    unfold monitorCycleBody
    rw [hp]
  · intro s env hp hst hcf
    unfold monitorCycleBody
    rw [hp, if_pos hst, hcf]
  · intro s env names hp hst hcf hcr
    unfold monitorCycleBody
    rw [hp, if_pos hst, hcf]
    simp [update_gateway_config_key_list, hcr]
  · intro s env hp hst hco hcs
    unfold monitorCycleBody
    rw [hp, if_neg hst, if_pos hco, hcs]

/-- Witness for C6's amended theorem at concrete states and cycle
environments: the connector-fetch exception case, the name-extraction
exception case (registry cleared, statuses untouched), and the
ping-cancellation case. -/
theorem swallowed_exception_amended_witness :
    monitorCycleBody
        ⟨GatewayContainerStatus.STOPPED, ConnVal.conn GatewayConnectivityStatus.OFFLINE,
          false, [], []⟩
        ⟨FetchResult.ok true, ConnectorsResult.exn, FetchResult.exn, FetchResult.exn⟩
      = some ⟨GatewayContainerStatus.STOPPED, ConnVal.conn GatewayConnectivityStatus.OFFLINE,
          false, [], []⟩ ∧
    monitorCycleBody
        ⟨GatewayContainerStatus.STOPPED, ConnVal.conn GatewayConnectivityStatus.OFFLINE,
          false, ["k"], ["old"]⟩
        ⟨FetchResult.ok true, ConnectorsResult.parseExn, FetchResult.exn, FetchResult.exn⟩
      = some ⟨GatewayContainerStatus.STOPPED, ConnVal.conn GatewayConnectivityStatus.OFFLINE,
          false, ["k"], []⟩ ∧
    monitorCycleBody
        ⟨GatewayContainerStatus.STOPPED, ConnVal.conn GatewayConnectivityStatus.OFFLINE,
          false, [], []⟩
        ⟨FetchResult.cancel, ConnectorsResult.exn, FetchResult.exn, FetchResult.exn⟩
      = none :=
  ⟨swallowed_exception_amended.1
      ⟨GatewayContainerStatus.STOPPED, ConnVal.conn GatewayConnectivityStatus.OFFLINE,
        false, [], []⟩
      ⟨FetchResult.ok true, ConnectorsResult.exn, FetchResult.exn, FetchResult.exn⟩
      rfl rfl rfl,
   swallowed_exception_amended.2.1
      ⟨GatewayContainerStatus.STOPPED, ConnVal.conn GatewayConnectivityStatus.OFFLINE,
        false, ["k"], ["old"]⟩
      ⟨FetchResult.ok true, ConnectorsResult.parseExn, FetchResult.exn, FetchResult.exn⟩
      rfl rfl rfl,
   swallowed_exception_amended.2.2.2.1
      ⟨GatewayContainerStatus.STOPPED, ConnVal.conn GatewayConnectivityStatus.OFFLINE,
        false, [], []⟩
      ⟨FetchResult.cancel, ConnectorsResult.exn, FetchResult.exn, FetchResult.exn⟩
      rfl⟩

/-- C7: `update_gateway_config_key_list` leaves the cached key list exactly
as it was when the configuration fetch or the flattening raises, and the
cached list is only ever replaced as a whole by the successfully flattened
list. -/
theorem update_config_key_list_atomic (keys : List String)
    (cfg : FetchResult (List String)) :
    (cfg = FetchResult.exn → update_gateway_config_key_list keys cfg = some keys) ∧
    (∀ l, update_gateway_config_key_list keys cfg = some l →
      l = keys ∨ cfg = FetchResult.ok l) := by
  cases cfg with
  | ok newKeys =>
    constructor
    · intro hc
      cases hc
    · intro l hl
      simp only [update_gateway_config_key_list] at hl
      injection hl with hl
      exact Or.inr (by rw [hl])
  | exn =>
    constructor
    · intro _
      rfl
    · intro l hl
      simp only [update_gateway_config_key_list] at hl
      injection hl with hl
      exact Or.inl (by rw [hl])
  | cancel =>
    constructor
    · intro hc
      cases hc
    · intro l hl
      simp only [update_gateway_config_key_list] at hl
      cases hl

/-- Witness for C7 at a concrete key list and a failing fetch. -/
theorem update_config_key_list_atomic_witness :
    update_gateway_config_key_list (["a.b"]) FetchResult.exn = some (["a.b"]) :=
  (update_config_key_list_atomic (["a.b"]) FetchResult.exn).1 rfl

/-- C8: from the initial state, the probe-outcome trace [fail, success,
success] — where the connectivity query of the second success reports at
least one chain with positive progress — ends at container RUNNING and
connectivity ONLINE, with the readiness event set at the end of the third
cycle's body and cleared by the cycle's `finally` block immediately after. -/
theorem startup_trace_fail_success_success (names cfgKeys : List String)
    (bs : List Int) (hprog : bs.any (fun b => decide (0 < b)) = true) :
    monitorCycle (initState [])
        ⟨FetchResult.ok false, ConnectorsResult.exn, FetchResult.exn, FetchResult.exn⟩
      = some (initState []) ∧
    monitorCycle (initState [])
        ⟨FetchResult.ok true, ConnectorsResult.ok names, FetchResult.ok cfgKeys, FetchResult.exn⟩
      = some ⟨GatewayContainerStatus.RUNNING, ConnVal.conn GatewayConnectivityStatus.OFFLINE,
          false, cfgKeys, names⟩ ∧
    monitorCycleBody
        ⟨GatewayContainerStatus.RUNNING, ConnVal.conn GatewayConnectivityStatus.OFFLINE,
          false, cfgKeys, names⟩
        ⟨FetchResult.ok true, ConnectorsResult.exn, FetchResult.exn, FetchResult.ok bs⟩
      = some ⟨GatewayContainerStatus.RUNNING, ConnVal.conn GatewayConnectivityStatus.ONLINE,
          true, cfgKeys, names⟩ ∧
    monitorCycle
        ⟨GatewayContainerStatus.RUNNING, ConnVal.conn GatewayConnectivityStatus.OFFLINE,
          false, cfgKeys, names⟩
        ⟨FetchResult.ok true, ConnectorsResult.exn, FetchResult.exn, FetchResult.ok bs⟩
      = some ⟨GatewayContainerStatus.RUNNING, ConnVal.conn GatewayConnectivityStatus.ONLINE,
          false, cfgKeys, names⟩ := by
  refine ⟨by decide, ?_, ?_, ?_⟩
  · simp [monitorCycle, monitorCycleBody, initState, update_gateway_config_key_list]
  · simp [monitorCycleBody, hprog]
  · simp [monitorCycle, monitorCycleBody, hprog]

/-- Witness for C8 with concrete connector names, configuration keys and
chain progress. -/
theorem startup_trace_witness :
    monitorCycle (initState [])
        ⟨FetchResult.ok false, ConnectorsResult.exn, FetchResult.exn, FetchResult.exn⟩
      = some (initState []) ∧
    monitorCycle (initState [])
        ⟨FetchResult.ok true, ConnectorsResult.ok (["uniswap"]), FetchResult.ok (["a.b"]),
          FetchResult.exn⟩
      = some ⟨GatewayContainerStatus.RUNNING, ConnVal.conn GatewayConnectivityStatus.OFFLINE,
          false, ["a.b"], ["uniswap"]⟩ ∧
    monitorCycleBody
        ⟨GatewayContainerStatus.RUNNING, ConnVal.conn GatewayConnectivityStatus.OFFLINE,
          false, ["a.b"], ["uniswap"]⟩
        ⟨FetchResult.ok true, ConnectorsResult.exn, FetchResult.exn, FetchResult.ok ([(5 : Int)])⟩
      = some ⟨GatewayContainerStatus.RUNNING, ConnVal.conn GatewayConnectivityStatus.ONLINE,
          true, ["a.b"], ["uniswap"]⟩ ∧
    monitorCycle
        ⟨GatewayContainerStatus.RUNNING, ConnVal.conn GatewayConnectivityStatus.OFFLINE,
          false, ["a.b"], ["uniswap"]⟩
        ⟨FetchResult.ok true, ConnectorsResult.exn, FetchResult.exn, FetchResult.ok ([(5 : Int)])⟩
      = some ⟨GatewayContainerStatus.RUNNING, ConnVal.conn GatewayConnectivityStatus.ONLINE,
          false, ["a.b"], ["uniswap"]⟩ :=
  startup_trace_fail_success_success (["uniswap"]) (["a.b"]) ([(5 : Int)]) (by decide)

/-- Helper for C9: against a monitor stuck at STOPPED, the wait loop runs
its full fuel, sleeping once per iteration. -/
theorem waitForOnlineAux_stuck (statusSeq : Nat → GatewayContainerStatus)
    (hstuck : ∀ k, statusSeq k = GatewayContainerStatus.STOPPED) :
    ∀ (fuel k : Nat),
      waitForOnlineAux statusSeq k fuel = (GatewayContainerStatus.STOPPED, fuel) := by
  intro fuel
  induction fuel with
  | zero => intro k; simp [waitForOnlineAux, hstuck]
  | succ n ih =>
    intro k
    simp [waitForOnlineAux, hstuck, ih (k + 1)]

/-- C9: `wait_for_online_status` is total (it is a Lean function) and never
raises: it returns immediately with zero sleeps when the container status
reads RUNNING at the first check, and against a monitor stuck at STOPPED it
returns STOPPED after exactly `maxTries` polling intervals, for every
non-negative `maxTries`. -/
theorem wait_for_online_status_exact (statusSeq : Nat → GatewayContainerStatus)
    (t : Int) (h0 : 0 ≤ t) :
    (statusSeq 0 = GatewayContainerStatus.RUNNING →
      wait_for_online_status statusSeq t = (GatewayContainerStatus.RUNNING, 0)) ∧
    ((∀ k, statusSeq k = GatewayContainerStatus.STOPPED) →
      wait_for_online_status statusSeq t = (GatewayContainerStatus.STOPPED, t.toNat)) := by
  constructor
  · intro hrun
    unfold wait_for_online_status
    cases hf : t.toNat with
    | zero => simp [waitForOnlineAux, hrun]
    | succ n => simp [waitForOnlineAux, hrun]
  · intro hstuck
    exact waitForOnlineAux_stuck statusSeq hstuck t.toNat 0

/-- Witness for C9: an immediately-RUNNING monitor returns with no sleeps,
and a stuck monitor polled with `max_tries = 3` returns STOPPED after
exactly three sleeps. -/
theorem wait_for_online_status_exact_witness :
    wait_for_online_status (fun _ => GatewayContainerStatus.RUNNING) 3
      = (GatewayContainerStatus.RUNNING, 0) ∧
    wait_for_online_status (fun _ => GatewayContainerStatus.STOPPED) 3
      = (GatewayContainerStatus.STOPPED, 3) :=
  ⟨(wait_for_online_status_exact (fun _ => GatewayContainerStatus.RUNNING) 3
      (by decide)).1 rfl,
   (wait_for_online_status_exact (fun _ => GatewayContainerStatus.STOPPED) 3
      (by decide)).2 (fun _ => rfl)⟩

/-- C10: a `max_tries` that is zero or negative makes
`wait_for_online_status` return the currently read container status at once,
with no sleep, even when that status is STOPPED. -/
theorem wait_for_online_status_nonpositive (statusSeq : Nat → GatewayContainerStatus)
    (t : Int) (h : t ≤ 0) :
    wait_for_online_status statusSeq t = (statusSeq 0, 0) := by
  unfold wait_for_online_status
  rw [Int.toNat_of_nonpos h]
  rfl

/-- Witness for C10 at a stuck-STOPPED monitor and `max_tries = 0` and `-2`. -/
theorem wait_for_online_status_nonpositive_witness :
    wait_for_online_status (fun _ => GatewayContainerStatus.STOPPED) 0
      = (GatewayContainerStatus.STOPPED, 0) ∧
    wait_for_online_status (fun _ => GatewayContainerStatus.STOPPED) (-2)
      = (GatewayContainerStatus.STOPPED, 0) :=
  ⟨wait_for_online_status_nonpositive (fun _ => GatewayContainerStatus.STOPPED) 0
      (by decide),
   wait_for_online_status_nonpositive (fun _ => GatewayContainerStatus.STOPPED) (-2)
      (by decide)⟩

/-! ## Known-answer checks for the primitive models -/

example : sha256 (utf8Encode ("abc")) =
    [0xba, 0x78, 0x16, 0xbf, 0x8f, 0x01, 0xcf, 0xea, 0x41, 0x41, 0x40, 0xde, 0x5d, 0xae,
     0x22, 0x23, 0xb0, 0x03, 0x61, 0xa3, 0x96, 0x17, 0x7a, 0x9c, 0xb4, 0x10, 0xff, 0x61,
     0xf2, 0x00, 0x15, 0xad] := by decide

example : base64Encode (sha256 (utf8Encode (""))) =
    "47DEQpj8HBSa+/TImW+5JCeuQeRkm5NMpJWZG3hSuFU=" := by decide

example : base64Encode (utf8Encode ("Man")) = "TWFu" := by decide

example : get_path_from_url ("https://www.okx.com/api/v5/account/balance")
    = "/api/v5/account/balance" := by decide

example : getTimestamp ⟨2020, 12, 8, 9, 8, 57, 715⟩ = "2020-12-08T09:08:57.715Z" := by decide
